import Mathlib

/-
Shallow embedding of the ShoppingCart repository (Django e-commerce backend).

Data model is translated from src/shopping_cart/models.py.  Decimal prices
(DecimalField max_digits=6 decimal_places=2) are modelled as natural numbers
counting hundredths of the currency unit.  Auto timestamps (auto_now,
auto_now_add), slugs, descriptions, promotions, images, reviews and addresses
are not referenced by any claim and are omitted.  Implicit integer primary
keys are kept as a `Nat` field where a claim needs to refer to a row; the
Cart UUID primary key is abstracted as a `Nat` token.

View logic is translated from src/shopping_cart/views.py and the signal
handler from src/shopping_cart/signals/handlers.py.  The DRF serializers
(serializers.py) are not part of the provided sources; the operations they
decide are modelled from the specification and carry a doc comment starting
with the words Modelled from the spec.
-/

namespace ShoppingCart

/-- Collection model (models.py): title, featured_product FK with
on_delete=SET_NULL (nullable). -/
structure Collection where
  id : Nat
  title : String
  featuredProduct : Option Nat
deriving Repr, DecidableEq

/-- Product model (models.py): title, unit_price (DecimalField, here Nat
hundredths, MinValueValidator(1)), inventory (MinValueValidator(0)),
collection FK with on_delete=PROTECT. -/
structure Product where
  id : Nat
  title : String
  unitPrice : Nat
  inventory : Nat
  collectionId : Nat
deriving Repr, DecidableEq

/-- Customer.MEMBERSHIP_BRONZE = 'B' (models.py). -/
def MEMBERSHIP_BRONZE : Char := 'B'

/-- Customer.MEMBERSHIP_SILVER = 'S' (models.py). -/
def MEMBERSHIP_SILVER : Char := 'S'

/-- Customer.MEMBERSHIP_GOLD = 'G' (models.py). -/
def MEMBERSHIP_GOLD : Char := 'G'

/-- Customer.MEMBERSHIP_CHOICES (models.py): stored code and display name. -/
def MEMBERSHIP_CHOICES : List (Char × String) :=
  [(MEMBERSHIP_BRONZE, "Bronze"),
   (MEMBERSHIP_SILVER, "Silver"),
   (MEMBERSHIP_GOLD, "Gold")]

/-- Customer model (models.py): membership CharField with
default=MEMBERSHIP_BRONZE, user OneToOneField (userId).  phone/birth_date
are unreferenced by the claims and omitted. -/
structure Customer where
  id : Nat
  userId : Nat
  membership : Char
deriving Repr, DecidableEq

/-- Order.PAYMENT_STATUS_PENDING = 'P' (models.py), the default. -/
def PAYMENT_STATUS_PENDING : Char := 'P'

/-- Order.PAYMENT_STATUS_COMPLETE = 'C' (models.py). -/
def PAYMENT_STATUS_COMPLETE : Char := 'C'

/-- Order.PAYMENT_STATUS_FAILED = 'F' (models.py). -/
def PAYMENT_STATUS_FAILED : Char := 'F'

/-- Order model (models.py): payment_status CharField with default 'P',
customer FK with on_delete=PROTECT.  placed_at (auto_now_add) omitted. -/
structure Order where
  id : Nat
  customerId : Nat
  paymentStatus : Char
deriving Repr, DecidableEq

/-- OrderItem model (models.py): order FK PROTECT, product FK PROTECT,
quantity PositiveSmallIntegerField, unit_price DecimalField (the snapshot). -/
structure OrderItem where
  orderId : Nat
  productId : Nat
  quantity : Nat
  unitPrice : Nat
deriving Repr, DecidableEq

/-- Cart model (models.py): UUID primary key abstracted as a Nat token;
created_at omitted. -/
structure Cart where
  id : Nat
deriving Repr, DecidableEq

/-- CartItem model (models.py): cart FK with on_delete=CASCADE
(related_name='items'), product FK with on_delete=CASCADE, quantity
PositiveSmallIntegerField with MinValueValidator(1);
Meta.unique_together = [['cart', 'product']]. -/
structure CartItem where
  id : Nat
  cartId : Nat
  productId : Nat
  quantity : Nat
deriving Repr, DecidableEq

/-- The relational store: one list per modelled table. -/
structure DB where
  collections : List Collection
  products : List Product
  customers : List Customer
  carts : List Cart
  cartItems : List CartItem
  orders : List Order
  orderItems : List OrderItem
deriving Repr, DecidableEq

/-- The empty store. -/
def DB.empty : DB := ⟨[], [], [], [], [], [], []⟩

/-- Product.objects lookup by primary key. -/
def findProduct (db : DB) (pid : Nat) : Option Product :=
  db.products.find? (fun p => p.id == pid)

/-- Unit price of a product, if it exists. -/
def productPrice (db : DB) (pid : Nat) : Option Nat :=
  (findProduct db pid).map (fun p => p.unitPrice)

/-- Cart.objects lookup by primary key. -/
def findCart (db : DB) (cartId : Nat) : Option Cart :=
  db.carts.find? (fun c => c.id == cartId)

/-- The CartItems of one cart (cart.items, related_name='items'). -/
def cartItemsOf (db : DB) (cartId : Nat) : List CartItem :=
  db.cartItems.filter (fun ci => ci.cartId == cartId)

/-- Customer.objects.get(user_id=...) as a partial lookup. -/
def findCustomerByUser (db : DB) (userId : Nat) : Option Customer :=
  db.customers.find? (fun c => c.userId == userId)

/-- OrderItem.objects.filter(product_id=pk) (views.py line 74). -/
def orderItemsForProduct (db : DB) (pk : Nat) : List OrderItem :=
  db.orderItems.filter (fun oi => oi.productId == pk)

/-- Product.objects.filter(collection_id=pk) (views.py line 134). -/
def productsForCollection (db : DB) (pk : Nat) : List Product :=
  db.products.filter (fun p => p.collectionId == pk)

/-- Signal handler create_customer_for_new_user
(src/shopping_cart/signals/handlers.py lines 6-14): on post_save of the auth
user model, if kwargs['created'] then Customer.objects.create(user=instance).
The created Customer takes the model defaults, in particular
membership = MEMBERSHIP_BRONZE.  freshId stands for the database-assigned
primary key of the new row. -/
def create_customer_for_new_user (db : DB) (created : Bool) (instanceId : Nat)
    (freshId : Nat) : DB :=
  if created then
    { db with customers :=
        db.customers ++ [{ id := freshId, userId := instanceId,
                           membership := MEMBERSHIP_BRONZE }] }
  else db

/-- Saving a brand-new identity row fires post_save with created=True
(Django post_save semantics for a model create). -/
def saveNewUser (db : DB) (userId : Nat) (freshCustomerId : Nat) : DB :=
  create_customer_for_new_user db true userId freshCustomerId

/-- Saving an existing identity row fires post_save with created=False
(Django post_save semantics for a model update). -/
def saveExistingUser (db : DB) (userId : Nat) (freshCustomerId : Nat) : DB :=
  create_customer_for_new_user db false userId freshCustomerId

/-- Django-level deletion of a Product row with its declared cascades
(models.py): CartItem.product is on_delete=CASCADE so cart lines vanish with
the product; Collection.featured_product is on_delete=SET_NULL.  OrderItem
and the product row itself: the row is removed from products.  (ProductImage
and Review cascades concern tables not modelled here.) -/
def deleteProductRow (db : DB) (pk : Nat) : DB :=
  { db with
    products := db.products.filter (fun p => !(p.id == pk)),
    cartItems := db.cartItems.filter (fun ci => !(ci.productId == pk)),
    collections := db.collections.map (fun c =>
      if c.featuredProduct == some pk then { c with featuredProduct := none }
      else c) }

/-- ProductViewSet.destroy (views.py lines 73-77): if any OrderItem
references the product, answer 405 METHOD_NOT_ALLOWED with the store
unchanged; otherwise fall through to the generic destroy, which answers 404
when the row does not exist and otherwise deletes it and answers 204. -/
def ProductViewSet_destroy (db : DB) (pk : Nat) : DB × Nat :=
  if 0 < (orderItemsForProduct db pk).length then
    (db, 405)
  else if (findProduct db pk).isNone then
    (db, 404)
  else
    (deleteProductRow db pk, 204)

/-- CollectionViewSet.destroy (views.py lines 133-137): if the queryset
Product.objects.filter(collection_id=pk) is truthy (non-empty), answer 405
with the store unchanged; otherwise the generic destroy answers 404 for a
missing row, else deletes the collection and answers 204. -/
def CollectionViewSet_destroy (db : DB) (pk : Nat) : DB × Nat :=
  if !(productsForCollection db pk).isEmpty then
    (db, 405)
  else if (db.collections.find? (fun c => c.id == pk)).isNone then
    (db, 404)
  else
    ({ db with collections := db.collections.filter (fun c => !(c.id == pk)) },
     204)

/-- Errors surfaced by the REST layer (spec section 7 taxonomy; only the
cases the claims exercise). -/
inductive ApiError where
  | validationError
  | notFound
  | serverInvariantViolation
deriving Repr, DecidableEq

/-- CartItem.quantity field validation (models.py lines 184-186, fixed by
migration 0009): a PositiveSmallIntegerField (range 0..32767) with
MinValueValidator(1); a submitted value is accepted only when both hold. -/
def cartItemQuantityValid (q : Int) : Bool :=
  (0 ≤ q && q ≤ 32767) && 1 ≤ q

/-- Modelled from the spec: UpdateCartItemSerializer (serializers.py is not
among the provided sources) handles PATCH on a cart line; per spec sections
4.2 and 8 it rejects a quantity of 0 or any negative quantity as a
ValidationError and otherwise stores the new quantity; the bounds applied
are exactly the model field validators of models.py lines 184-186. -/
def UpdateCartItemSerializer_save (db : DB) (itemId : Nat) (q : Int) :
    Except ApiError DB :=
  if cartItemQuantityValid q then
    Except.ok { db with cartItems := db.cartItems.map (fun ci =>
      if ci.id == itemId then { ci with quantity := q.toNat } else ci) }
  else
    Except.error ApiError.validationError

/-- The merge applied to a cart line when its (cart, product) pair matches
the submitted one: the submitted quantity is added onto the line. -/
def mergeLine (cartId productId addQ : Nat) (ci : CartItem) : CartItem :=
  if ci.cartId == cartId && ci.productId == productId then
    { ci with quantity := ci.quantity + addQ }
  else ci

/-- Modelled from the spec: AddCartItemSerializer (serializers.py is not
among the provided sources) handles POST of (product id, quantity) on a
cart; per spec sections 4.2 and 6, adding a product already present in the
cart increases the existing line's quantity instead of creating a duplicate
line, and adding a new product creates a new line; the submitted quantity
passes the model field validators (models.py lines 184-186).  freshId stands
for the database-assigned primary key of a newly created row. -/
def AddCartItemSerializer_save (db : DB) (cartId productId : Nat) (q : Int)
    (freshId : Nat) : Except ApiError DB :=
  if cartItemQuantityValid q then
    match db.cartItems.find? (fun ci =>
        ci.cartId == cartId && ci.productId == productId) with
    | some _ =>
      Except.ok { db with
        cartItems := db.cartItems.map (mergeLine cartId productId q.toNat) }
    | none =>
      Except.ok { db with cartItems := db.cartItems ++
        [{ id := freshId, cartId := cartId, productId := productId,
           quantity := q.toNat }] }
  else
    Except.error ApiError.validationError

/-- The price snapshot taken for one cart line: quantity is copied and
unit_price is read from the referenced Product as it stands in db now
(spec section 4.1; FK integrity guarantees the product exists, the
default 0 is never reached on a well-formed store). -/
def orderItemSnapshot (db : DB) (orderId : Nat) (ci : CartItem) : OrderItem :=
  { orderId := orderId, productId := ci.productId, quantity := ci.quantity,
    unitPrice := (productPrice db ci.productId).getD 0 }

/-- Modelled from the spec: CreateOrderSerializer.save (serializers.py is
not among the provided sources), invoked by OrderViewSet.create (views.py
lines 482-489).  Per spec sections 4.1 and 5: validate that the cart id
references an existing, non-empty cart (NotFound/ValidationError otherwise,
store untouched); resolve the caller to its Customer (absence is a server
invariant violation); then, as one atomic unit, create the Order header
(payment status defaulting to 'P'), one OrderItem per cart line copying
quantity and the product's current unit price, and delete the cart with its
items (cascade).  freshOrderId stands for the database-assigned primary key
of the new Order. -/
def CreateOrderSerializer_save (db : DB) (userId cartId freshOrderId : Nat) :
    DB × Except ApiError Order :=
  if (findCart db cartId).isNone then
    (db, Except.error ApiError.notFound)
  else if (cartItemsOf db cartId).isEmpty then
    (db, Except.error ApiError.validationError)
  else
    match findCustomerByUser db userId with
    | none => (db, Except.error ApiError.serverInvariantViolation)
    | some cust =>
      let order : Order :=
        { id := freshOrderId, customerId := cust.id,
          paymentStatus := PAYMENT_STATUS_PENDING }
      ({ db with
          orders := db.orders ++ [order],
          orderItems := db.orderItems ++
            (cartItemsOf db cartId).map (orderItemSnapshot db freshOrderId),
          carts := db.carts.filter (fun c => !(c.id == cartId)),
          cartItems := db.cartItems.filter (fun ci => !(ci.cartId == cartId)) },
       Except.ok order)

/-- OrderViewSet.create (views.py lines 482-489): run the
CreateOrderSerializer with the caller's user id as context and return the
saved order. -/
def OrderViewSet_create (db : DB) (userId cartId freshOrderId : Nat) :
    DB × Except ApiError Order :=
  CreateOrderSerializer_save db userId cartId freshOrderId

/-- A later Product price update (PUT/PATCH on the product resource): only
the products table changes. -/
def updateProductPrice (db : DB) (pid : Nat) (newPrice : Nat) : DB :=
  { db with products := db.products.map (fun p =>
      if p.id == pid then { p with unitPrice := newPrice } else p) }

/-- An API caller: anonymous, or an authenticated account with a user id
and a staff flag (Django request.user; AnonymousUser has is_staff False
and is not authenticated). -/
inductive Caller where
  | anon
  | auth (userId : Nat) (staff : Bool)
deriving Repr, DecidableEq

/-- request.user.is_authenticated. -/
def Caller.isAuthenticated : Caller → Bool
  | Caller.anon => false
  | Caller.auth _ _ => true

/-- request.user.is_staff (False for AnonymousUser). -/
def Caller.isStaff : Caller → Bool
  | Caller.anon => false
  | Caller.auth _ s => s

/-- The DRF permission classes OrderViewSet uses. -/
inductive Permission where
  | isAdminUser
  | isAuthenticated
deriving Repr, DecidableEq

/-- DRF semantics: IsAdminUser passes iff request.user.is_staff;
IsAuthenticated passes iff the caller is authenticated. -/
def permissionAllows : Permission → Caller → Bool
  | Permission.isAdminUser, c => c.isStaff
  | Permission.isAuthenticated, c => c.isAuthenticated

/-- HTTP methods OrderViewSet accepts (http_method_names, views.py 475). -/
inductive Method where
  | get
  | post
  | patch
  | delete
  | head
  | options
deriving Repr, DecidableEq

/-- OrderViewSet.get_permissions (views.py lines 477-480): PATCH and DELETE
require IsAdminUser, every other method requires IsAuthenticated. -/
def OrderViewSet_get_permissions (m : Method) : List Permission :=
  if m = Method.patch ∨ m = Method.delete then [Permission.isAdminUser]
  else [Permission.isAuthenticated]

/-- A request on the Order resource is allowed when every permission from
get_permissions passes (DRF check_permissions). -/
def orderRequestAllowed (m : Method) (c : Caller) : Bool :=
  (OrderViewSet_get_permissions m).all (fun p => permissionAllows p c)

/-- OrderViewSet.get_queryset (views.py lines 498-506): a staff user sees
all orders; otherwise the caller's Customer row is looked up
(Customer.objects.get raises - modelled as none - when absent) and only
orders with that customer id are returned. -/
def OrderViewSet_get_queryset (db : DB) (userId : Nat) (staff : Bool) :
    Option (List Order) :=
  if staff then some db.orders
  else
    match findCustomerByUser db userId with
    | none => none
    | some cust => some (db.orders.filter (fun o => o.customerId == cust.id))

/-- Every cart line references an existing product (the foreign-key
integrity that CartItem.product declares in models.py). -/
def cartItemFKIntegrity (db : DB) : Prop :=
  ∀ ci ∈ db.cartItems, ∃ p ∈ db.products, p.id = ci.productId

instance (db : DB) : Decidable (cartItemFKIntegrity db) := by
  unfold cartItemFKIntegrity; infer_instance

/-- No two cart lines of one store share the same (cart, product) pair
(Meta.unique_together on CartItem in models.py). -/
def uniquePerCartProduct (db : DB) : Prop :=
  db.cartItems.Pairwise (fun a b => a.cartId ≠ b.cartId ∨ a.productId ≠ b.productId)

instance (db : DB) : Decidable (uniquePerCartProduct db) := by
  unfold uniquePerCartProduct; infer_instance

/-- Unfolding lemma for a successful order placement: the returned order
carries the fresh id, and the new store state appends the order header and
the snapshot items while deleting the cart and its lines. -/
theorem save_ok {db : DB} {uid cid oid : Nat} {order : Order}
    (h : (CreateOrderSerializer_save db uid cid oid).2 = Except.ok order) :
    order.id = oid
    ∧ (CreateOrderSerializer_save db uid cid oid).1.orders = db.orders ++ [order]
    ∧ (CreateOrderSerializer_save db uid cid oid).1.orderItems
        = db.orderItems ++ (cartItemsOf db cid).map (orderItemSnapshot db oid)
    ∧ (CreateOrderSerializer_save db uid cid oid).1.carts
        = db.carts.filter (fun c => !(c.id == cid))
    ∧ (CreateOrderSerializer_save db uid cid oid).1.cartItems
        = db.cartItems.filter (fun ci => !(ci.cartId == cid))
    ∧ (findCart db cid).isSome
    ∧ cartItemsOf db cid ≠ [] := by
  by_cases h1 : (findCart db cid).isNone
  · simp [CreateOrderSerializer_save, h1] at h
  · by_cases h2 : (cartItemsOf db cid).isEmpty
    · simp [CreateOrderSerializer_save, h1, h2] at h
    · rcases h3 : findCustomerByUser db uid with _ | cust
      · simp [CreateOrderSerializer_save, h1, h2, h3] at h
      · have hord : order = ⟨oid, cust.id, PAYMENT_STATUS_PENDING⟩ := by
          simpa [CreateOrderSerializer_save, h1, h2, h3] using h.symm
        subst hord
        refine ⟨rfl, ?_, ?_, ?_, ?_, ?_, ?_⟩ <;>
          simp_all [CreateOrderSerializer_save, Option.isNone_iff_eq_none,
            Option.isSome_iff_ne_none, List.isEmpty_iff]

/-- Unfolding lemma for a failed order placement: the store is returned
unchanged. -/
theorem save_error {db : DB} {uid cid oid : Nat} {e : ApiError}
    (h : (CreateOrderSerializer_save db uid cid oid).2 = Except.error e) :
    (CreateOrderSerializer_save db uid cid oid).1 = db := by
  by_cases h1 : (findCart db cid).isNone
  · simp [CreateOrderSerializer_save, h1]
  · by_cases h2 : (cartItemsOf db cid).isEmpty
    · simp [CreateOrderSerializer_save, h1, h2]
    · rcases h3 : findCustomerByUser db uid with _ | cust
      · simp [CreateOrderSerializer_save, h1, h2, h3]
      · simp [CreateOrderSerializer_save, h1, h2, h3] at h

/-- Unfolding lemma: placement succeeds whenever the cart exists, holds at
least one line, and the caller resolves to a Customer. -/
theorem save_succeeds {db : DB} {uid cid : Nat} (oid : Nat)
    (hcart : (findCart db cid).isSome)
    (hitems : cartItemsOf db cid ≠ [])
    (hcust : (findCustomerByUser db uid).isSome) :
    ∃ order, (CreateOrderSerializer_save db uid cid oid).2 = Except.ok order := by
  rcases h3 : findCustomerByUser db uid with _ | cust
  · rw [h3] at hcust; simp at hcust
  · have h1 : ¬(findCart db cid).isNone := by
      simp [Option.isNone_iff_eq_none, Option.isSome_iff_ne_none] at hcart ⊢
      exact hcart
    have h2 : ¬(cartItemsOf db cid).isEmpty := by
      simpa [List.isEmpty_iff] using hitems
    exact ⟨⟨oid, cust.id, PAYMENT_STATUS_PENDING⟩,
      by simp [CreateOrderSerializer_save, h1, h2, h3]⟩

/-- C5: creating a new identity provisions exactly one linked Customer with
default membership 'B' (display name "Bronze"); the hook does nothing on an
identity update; and a later identity creation leaves every previously
existing Customer row in place untouched. -/
theorem claim_C5_customer_provisioning (db : DB) (uid uid2 fid fid2 : Nat)
    (hfresh : (db.customers.filter (fun c => c.userId == uid)).length = 0)
    (hne : uid2 ≠ uid) :
    ((saveNewUser db uid fid).customers.filter (fun c => c.userId == uid)
        = [{ id := fid, userId := uid, membership := MEMBERSHIP_BRONZE }]
      ∧ ((saveNewUser db uid fid).customers.filter
          (fun c => c.userId == uid)).length = 1
      ∧ ∀ c ∈ (saveNewUser db uid fid).customers.filter
          (fun c => c.userId == uid),
          c.membership = MEMBERSHIP_BRONZE
          ∧ MEMBERSHIP_CHOICES.lookup c.membership = some "Bronze")
    ∧ (∀ fid3, saveExistingUser (saveNewUser db uid fid) uid fid3
        = saveNewUser db uid fid)
    ∧ ((saveNewUser (saveNewUser db uid fid) uid2 fid2).customers.filter
        (fun c => c.userId == uid)
        = (saveNewUser db uid fid).customers.filter (fun c => c.userId == uid)) := by
  have hnil : db.customers.filter (fun c => c.userId == uid) = [] :=
    List.length_eq_zero.mp hfresh
  have hfil : (saveNewUser db uid fid).customers.filter (fun c => c.userId == uid)
      = [{ id := fid, userId := uid, membership := MEMBERSHIP_BRONZE }] := by
    simp [saveNewUser, create_customer_for_new_user, List.filter_append, hnil]
  refine ⟨⟨hfil, ?_, ?_⟩, ?_, ?_⟩
  · rw [hfil]; rfl
  · intro c hc
    rw [hfil] at hc
    have hcx : c = { id := fid, userId := uid, membership := MEMBERSHIP_BRONZE } :=
      List.mem_singleton.mp hc
    subst hcx
    exact ⟨rfl, rfl⟩
  · intro fid3
    rfl
  · simp [saveNewUser, create_customer_for_new_user, List.filter_append, hne]

/-- Closed witness for C5 at a concrete store. -/
theorem claim_C5_customer_provisioning_witness :
    ((saveNewUser DB.empty 7 1).customers.filter (fun c => c.userId == 7)
        = [{ id := 1, userId := 7, membership := MEMBERSHIP_BRONZE }]
      ∧ ((saveNewUser DB.empty 7 1).customers.filter
          (fun c => c.userId == 7)).length = 1
      ∧ ∀ c ∈ (saveNewUser DB.empty 7 1).customers.filter
          (fun c => c.userId == 7),
          c.membership = MEMBERSHIP_BRONZE
          ∧ MEMBERSHIP_CHOICES.lookup c.membership = some "Bronze")
    ∧ (∀ fid3, saveExistingUser (saveNewUser DB.empty 7 1) 7 fid3
        = saveNewUser DB.empty 7 1)
    ∧ ((saveNewUser (saveNewUser DB.empty 7 1) 8 2).customers.filter
        (fun c => c.userId == 7)
        = (saveNewUser DB.empty 7 1).customers.filter (fun c => c.userId == 7)) :=
  claim_C5_customer_provisioning DB.empty 7 8 1 2 (by decide) (by decide)

/-- C6: deleting a Product referenced by at least one OrderItem, and
deleting a Collection referenced by at least one Product, are both rejected
with status 405 (METHOD_NOT_ALLOWED, not a 500-class server error) and
leave the store unchanged. -/
theorem claim_C6_protected_deletes (db : DB) (ppk cpk : Nat)
    (hp : 0 < (orderItemsForProduct db ppk).length)
    (hc : productsForCollection db cpk ≠ []) :
    ProductViewSet_destroy db ppk = (db, 405)
    ∧ CollectionViewSet_destroy db cpk = (db, 405) := by
  constructor
  · simp [ProductViewSet_destroy, hp]
  · have hne : (productsForCollection db cpk).isEmpty = false := by
      simpa [List.isEmpty_iff] using hc
    simp [CollectionViewSet_destroy, hne]

/-- Closed witness for C6: one order item references product 1; product 1
sits in collection 1. -/
theorem claim_C6_protected_deletes_witness :
    ProductViewSet_destroy
      { DB.empty with
        products := [{ id := 1, title := "p", unitPrice := 100,
                       inventory := 5, collectionId := 1 }],
        orderItems := [{ orderId := 1, productId := 1, quantity := 2,
                         unitPrice := 100 }] } 1
      = ({ DB.empty with
           products := [{ id := 1, title := "p", unitPrice := 100,
                          inventory := 5, collectionId := 1 }],
           orderItems := [{ orderId := 1, productId := 1, quantity := 2,
                            unitPrice := 100 }] }, 405)
    ∧ CollectionViewSet_destroy
      { DB.empty with
        products := [{ id := 1, title := "p", unitPrice := 100,
                       inventory := 5, collectionId := 1 }],
        orderItems := [{ orderId := 1, productId := 1, quantity := 2,
                         unitPrice := 100 }] } 1
      = ({ DB.empty with
           products := [{ id := 1, title := "p", unitPrice := 100,
                          inventory := 5, collectionId := 1 }],
           orderItems := [{ orderId := 1, productId := 1, quantity := 2,
                            unitPrice := 100 }] }, 405) :=
  claim_C6_protected_deletes _ 1 1 (by decide) (by decide)

/-- C7: a cart-line quantity update to 0 is rejected as a ValidationError,
as is any negative quantity; and every accepted cart-line mutation (update
or add) keeps all quantities at least 1. -/
theorem claim_C7_quantity_validation (db : DB) (iid cid pid fid : Nat) (q : Int) :
    UpdateCartItemSerializer_save db iid 0 = Except.error ApiError.validationError
    ∧ (q < 0 →
        UpdateCartItemSerializer_save db iid q
          = Except.error ApiError.validationError)
    ∧ (∀ db', UpdateCartItemSerializer_save db iid q = Except.ok db' →
        (∀ ci ∈ db.cartItems, 1 ≤ ci.quantity) →
        ∀ ci ∈ db'.cartItems, 1 ≤ ci.quantity)
    ∧ (∀ db', AddCartItemSerializer_save db cid pid q fid = Except.ok db' →
        (∀ ci ∈ db.cartItems, 1 ≤ ci.quantity) →
        ∀ ci ∈ db'.cartItems, 1 ≤ ci.quantity) := by
  refine ⟨?_, ?_, ?_, ?_⟩
  · simp [UpdateCartItemSerializer_save, cartItemQuantityValid]
  · intro hq
    have : cartItemQuantityValid q = false := by
      simp [cartItemQuantityValid]; intro h0; omega
    simp [UpdateCartItemSerializer_save, this]
  · intro db' hok hinv ci hci
    by_cases hv : cartItemQuantityValid q
    · have h1q : (1 : Int) ≤ q := by
        simp [cartItemQuantityValid] at hv; omega
      simp [UpdateCartItemSerializer_save, hv] at hok
      subst hok
      simp at hci
      rcases hci with ⟨cj, hcj, hmap⟩
      by_cases hid : cj.id = iid
      · simp [hid] at hmap
        subst hmap
        simpa using Int.toNat_le_toNat h1q
      · simp [hid] at hmap
        subst hmap
        exact hinv _ hcj
    · simp [UpdateCartItemSerializer_save, hv] at hok
  · intro db' hok hinv ci hci
    by_cases hv : cartItemQuantityValid q
    · have h1q : (1 : Int) ≤ q := by
        simp [cartItemQuantityValid] at hv; omega
      have h1n : 1 ≤ q.toNat := by simpa using Int.toNat_le_toNat h1q
      rcases hfind : db.cartItems.find? (fun ci =>
          ci.cartId == cid && ci.productId == pid) with _ | ci0
      · simp [AddCartItemSerializer_save, hv, hfind] at hok
        subst hok
        simp at hci
        rcases hci with hci | hci
        · exact hinv _ hci
        · subst hci; exact h1n
      · simp [AddCartItemSerializer_save, hv, hfind] at hok
        subst hok
        simp at hci
        rcases hci with ⟨cj, hcj, hmap⟩
        by_cases hmatch : cj.cartId = cid ∧ cj.productId = pid
        · simp [mergeLine, hmatch] at hmap
          subst hmap
          simp
          omega
        · simp [mergeLine, hmatch] at hmap
          subst hmap
          exact hinv _ hcj
    · simp [AddCartItemSerializer_save, hv] at hok

/-- Closed witness for C7: updating the only line of a concrete cart to -1
is rejected as a ValidationError. -/
theorem claim_C7_quantity_validation_witness :
    UpdateCartItemSerializer_save
      { DB.empty with
        carts := [{ id := 3 }],
        cartItems := [{ id := 1, cartId := 3, productId := 1, quantity := 2 }] }
      1 (-1) = Except.error ApiError.validationError :=
  (claim_C7_quantity_validation _ 1 3 1 9 (-1)).2.1 (by decide)

/-- C8: a non-staff caller's order list contains exactly their own
Customer's orders; a staff caller sees every order; PATCH and DELETE on the
Order resource pass the permission check exactly for staff callers; and any
allowed Order request implies the caller is authenticated. -/
theorem claim_C8_order_access (db : DB) (uid : Nat) (cust : Customer)
    (m : Method) (c : Caller)
    (hcust : findCustomerByUser db uid = some cust) :
    OrderViewSet_get_queryset db uid false
      = some (db.orders.filter (fun o => o.customerId == cust.id))
    ∧ (∀ o ∈ (db.orders.filter (fun o => o.customerId == cust.id)),
        o.customerId = cust.id)
    ∧ (∀ staffUid, OrderViewSet_get_queryset db staffUid true = some db.orders)
    ∧ orderRequestAllowed Method.patch c = c.isStaff
    ∧ orderRequestAllowed Method.delete c = c.isStaff
    ∧ (orderRequestAllowed m c = true → c.isAuthenticated = true) := by
  refine ⟨?_, ?_, ?_, ?_, ?_, ?_⟩
  · simp [OrderViewSet_get_queryset, hcust]
  · intro o ho
    simpa using (List.mem_filter.mp ho).2
  · intro staffUid
    simp [OrderViewSet_get_queryset]
  · simp [orderRequestAllowed, OrderViewSet_get_permissions, permissionAllows]
  · simp [orderRequestAllowed, OrderViewSet_get_permissions, permissionAllows]
  · intro hallow
    cases c with
    | anon =>
      cases m <;>
        simp [orderRequestAllowed, OrderViewSet_get_permissions,
          permissionAllows, Caller.isStaff, Caller.isAuthenticated] at hallow
    | auth u s => rfl

/-- Closed witness for C8 at a concrete store: user 5 owns customer 2,
which owns order 1 but not order 2. -/
theorem claim_C8_order_access_witness :
    OrderViewSet_get_queryset
      { DB.empty with
        customers := [{ id := 2, userId := 5, membership := 'B' }],
        orders := [{ id := 1, customerId := 2, paymentStatus := 'P' },
                   { id := 2, customerId := 3, paymentStatus := 'P' }] }
      5 false
      = some [{ id := 1, customerId := 2, paymentStatus := 'P' }]
    ∧ orderRequestAllowed Method.patch (Caller.auth 5 false) = false
    ∧ orderRequestAllowed Method.delete (Caller.auth 5 false) = false
    ∧ orderRequestAllowed Method.get Caller.anon = false := by
  have h := claim_C8_order_access
    { DB.empty with
      customers := [{ id := 2, userId := 5, membership := 'B' }],
      orders := [{ id := 1, customerId := 2, paymentStatus := 'P' },
                 { id := 2, customerId := 3, paymentStatus := 'P' }] }
    5 { id := 2, userId := 5, membership := 'B' }
    Method.get (Caller.auth 5 false) (by decide)
  have h2 := (claim_C8_order_access
    { DB.empty with
      customers := [{ id := 2, userId := 5, membership := 'B' }],
      orders := [{ id := 1, customerId := 2, paymentStatus := 'P' },
                 { id := 2, customerId := 3, paymentStatus := 'P' }] }
    5 { id := 2, userId := 5, membership := 'B' }
    Method.get Caller.anon (by decide)).2.2.2.2.2
  refine ⟨(h.1).trans (by decide), (h.2.2.2.1).trans (by decide),
    (h.2.2.2.2.1).trans (by decide), ?_⟩
  cases hb : orderRequestAllowed Method.get Caller.anon
  · rfl
  · exact absurd (h2 hb) (by decide)

/-- C10: a product delete is never blocked by cart references - with no
OrderItem referencing it the view deletes the product (204) and every cart
line referencing it is cascade-deleted; and the integrity invariant (every
surviving cart line references an existing product) is preserved by every
modelled operation that touches products or cart lines. -/
theorem claim_C10_cascade_and_integrity (db : DB) (pk : Nat)
    (hno : (orderItemsForProduct db pk).length = 0)
    (hex : (findProduct db pk).isSome) :
    (ProductViewSet_destroy db pk).2 = 204
    ∧ (ProductViewSet_destroy db pk).1.cartItems
        = db.cartItems.filter (fun ci => !(ci.productId == pk))
    ∧ (cartItemFKIntegrity db → ∀ pk2,
        cartItemFKIntegrity (ProductViewSet_destroy db pk2).1)
    ∧ (cartItemFKIntegrity db → ∀ pk2,
        cartItemFKIntegrity (CollectionViewSet_destroy db pk2).1)
    ∧ (cartItemFKIntegrity db → ∀ iid q db',
        UpdateCartItemSerializer_save db iid q = Except.ok db' →
        cartItemFKIntegrity db')
    ∧ (cartItemFKIntegrity db → ∀ cid pid q fid db',
        (∃ p ∈ db.products, p.id = pid) →
        AddCartItemSerializer_save db cid pid q fid = Except.ok db' →
        cartItemFKIntegrity db')
    ∧ (cartItemFKIntegrity db → ∀ uid cid oid,
        cartItemFKIntegrity (CreateOrderSerializer_save db uid cid oid).1) := by
  have hnz : ¬ 0 < (orderItemsForProduct db pk).length := by omega
  have hsome : ¬ (findProduct db pk).isNone = true := by
    simp [Option.isNone_iff_eq_none, Option.isSome_iff_ne_none] at hex ⊢
    exact hex
  refine ⟨?_, ?_, ?_, ?_, ?_, ?_, ?_⟩
  · simp [ProductViewSet_destroy, hnz, hsome]
  · simp [ProductViewSet_destroy, deleteProductRow, hnz, hsome]
  · intro hint pk2
    by_cases c1 : 0 < (orderItemsForProduct db pk2).length
    · simpa [ProductViewSet_destroy, c1] using hint
    · by_cases c2 : (findProduct db pk2).isNone = true
      · simpa [ProductViewSet_destroy, c1, c2] using hint
      · intro ci hci
        simp [ProductViewSet_destroy, deleteProductRow, c1, c2,
          List.mem_filter] at hci
        rcases hci with ⟨hmem, hnpk⟩
        rcases hint ci hmem with ⟨p, hp, hpid⟩
        refine ⟨p, ?_, hpid⟩
        simp [ProductViewSet_destroy, deleteProductRow, c1, c2,
          List.mem_filter]
        exact ⟨hp, by rw [hpid]; exact hnpk⟩
  · intro hint pk2
    have hkeep : (CollectionViewSet_destroy db pk2).1.products = db.products
        ∧ (CollectionViewSet_destroy db pk2).1.cartItems = db.cartItems := by
      unfold CollectionViewSet_destroy
      split
      · exact ⟨rfl, rfl⟩
      · split
        · exact ⟨rfl, rfl⟩
        · exact ⟨rfl, rfl⟩
    intro ci hci
    rw [hkeep.2] at hci
    rcases hint ci hci with ⟨p, hp, hpid⟩
    rw [hkeep.1]
    exact ⟨p, hp, hpid⟩
  · intro hint iid q db' hok
    by_cases hv : cartItemQuantityValid q
    · simp [UpdateCartItemSerializer_save, hv] at hok
      subst hok
      intro ci hci
      simp at hci
      rcases hci with ⟨cj, hcj, hmap⟩
      rcases hint cj hcj with ⟨p, hp, hpid⟩
      refine ⟨p, by simpa using hp, ?_⟩
      by_cases hid : cj.id = iid <;> simp [hid] at hmap <;> subst hmap <;>
        simpa using hpid
    · simp [UpdateCartItemSerializer_save, hv] at hok
  · intro hint cid pid q fid db' hpex hok
    by_cases hv : cartItemQuantityValid q
    · rcases hfind : db.cartItems.find? (fun ci =>
          ci.cartId == cid && ci.productId == pid) with _ | ci0
      · simp [AddCartItemSerializer_save, hv, hfind] at hok
        subst hok
        intro ci hci
        simp at hci
        rcases hci with hci | hci
        · rcases hint ci hci with ⟨p, hp, hpid⟩
          exact ⟨p, by simpa using hp, hpid⟩
        · subst hci
          rcases hpex with ⟨p, hp, hpid⟩
          exact ⟨p, by simpa using hp, hpid⟩
      · simp [AddCartItemSerializer_save, hv, hfind] at hok
        subst hok
        intro ci hci
        simp at hci
        rcases hci with ⟨cj, hcj, hmap⟩
        rcases hint cj hcj with ⟨p, hp, hpid⟩
        refine ⟨p, by simpa using hp, ?_⟩
        by_cases hmatch : cj.cartId = cid ∧ cj.productId = pid
        · simp [mergeLine, hmatch] at hmap
          subst hmap
          simpa using hpid.trans hmatch.2
        · simp [mergeLine, hmatch] at hmap
          subst hmap
          simpa using hpid
    · simp [AddCartItemSerializer_save, hv] at hok
  · intro hint uid cid oid
    rcases hres : (CreateOrderSerializer_save db uid cid oid).2 with e | ord
    · rw [save_error hres]; exact hint
    · have hshape := save_ok hres
      intro ci hci
      rw [hshape.2.2.2.2.1] at hci
      have hmem : ci ∈ db.cartItems := (List.mem_filter.mp hci).1
      rcases hint ci hmem with ⟨p, hp, hpid⟩
      have hprod : (CreateOrderSerializer_save db uid cid oid).1.products
          = db.products := by
        rcases h3 : findCustomerByUser db uid with _ | cust <;>
          by_cases h1 : (findCart db cid).isNone <;>
          by_cases h2 : (cartItemsOf db cid).isEmpty <;>
          simp [CreateOrderSerializer_save, h1, h2, h3]
      rw [hprod]
      exact ⟨p, hp, hpid⟩

/-- Closed witness for C10: product 1 is in a cart but in no order, so its
delete succeeds and drains the cart line. -/
theorem claim_C10_cascade_and_integrity_witness :
    (ProductViewSet_destroy
      { DB.empty with
        products := [{ id := 1, title := "p", unitPrice := 100,
                       inventory := 5, collectionId := 1 }],
        carts := [{ id := 3 }],
        cartItems := [{ id := 1, cartId := 3, productId := 1,
                        quantity := 2 }] } 1).2 = 204
    ∧ (ProductViewSet_destroy
      { DB.empty with
        products := [{ id := 1, title := "p", unitPrice := 100,
                       inventory := 5, collectionId := 1 }],
        carts := [{ id := 3 }],
        cartItems := [{ id := 1, cartId := 3, productId := 1,
                        quantity := 2 }] } 1).1.cartItems = [] := by
  have h := claim_C10_cascade_and_integrity
    { DB.empty with
      products := [{ id := 1, title := "p", unitPrice := 100,
                     inventory := 5, collectionId := 1 }],
      carts := [{ id := 3 }],
      cartItems := [{ id := 1, cartId := 3, productId := 1,
                      quantity := 2 }] } 1 (by decide) (by decide)
  exact ⟨h.1, (h.2.1).trans (by decide)⟩

/-- Unfolding lemma: after a successful placement the cart row is gone and
no line of that cart survives. -/
theorem save_ok_cart_gone {db : DB} {uid cid oid : Nat} {order : Order}
    (h : (CreateOrderSerializer_save db uid cid oid).2 = Except.ok order) :
    findCart (CreateOrderSerializer_save db uid cid oid).1 cid = none
    ∧ cartItemsOf (CreateOrderSerializer_save db uid cid oid).1 cid = [] := by
  have hs := save_ok h
  constructor
  · unfold findCart
    rw [hs.2.2.2.1]
    apply List.find?_eq_none.mpr
    intro x hx
    simpa using (List.mem_filter.mp hx).2
  · unfold cartItemsOf
    rw [hs.2.2.2.2.1]
    apply List.filter_eq_nil_iff.mpr
    intro a ha
    simpa using (List.mem_filter.mp ha).2

/-- C1: a successful placement appends exactly one OrderItem per cart line,
all attached to the returned order, each copying the line's quantity and
the referenced product's unit price as stored at call time; and a later
product-price update never touches the stored order items. -/
theorem claim_C1_price_snapshot (db : DB) (uid cid oid : Nat) (order : Order)
    (h : (CreateOrderSerializer_save db uid cid oid).2 = Except.ok order) :
    (CreateOrderSerializer_save db uid cid oid).1.orderItems
      = db.orderItems ++ (cartItemsOf db cid).map (orderItemSnapshot db oid)
    ∧ ((cartItemsOf db cid).map (orderItemSnapshot db oid)).length
        = (cartItemsOf db cid).length
    ∧ (∀ ci ∈ cartItemsOf db cid,
        (orderItemSnapshot db oid ci).orderId = order.id
        ∧ (orderItemSnapshot db oid ci).quantity = ci.quantity
        ∧ (orderItemSnapshot db oid ci).unitPrice
            = (productPrice db ci.productId).getD 0)
    ∧ (∀ pid np,
        (updateProductPrice
          (CreateOrderSerializer_save db uid cid oid).1 pid np).orderItems
          = (CreateOrderSerializer_save db uid cid oid).1.orderItems) := by
  have hs := save_ok h
  refine ⟨hs.2.2.1, by simp, ?_, ?_⟩
  · intro ci _
    exact ⟨by rw [hs.1]; rfl, rfl, rfl⟩
  · intro pid np
    rfl

/-- Closed witness for C1: one cart line of quantity 2 on product 1 priced
100 becomes exactly one order item with quantity 2 and unit price 100. -/
theorem claim_C1_price_snapshot_witness :
    (CreateOrderSerializer_save
      { DB.empty with
        products := [{ id := 1, title := "p", unitPrice := 100,
                       inventory := 5, collectionId := 1 }],
        customers := [{ id := 2, userId := 5, membership := 'B' }],
        carts := [{ id := 3 }],
        cartItems := [{ id := 1, cartId := 3, productId := 1,
                        quantity := 2 }] } 5 3 10).1.orderItems
      = [{ orderId := 10, productId := 1, quantity := 2, unitPrice := 100 }] := by
  have h := claim_C1_price_snapshot
    { DB.empty with
      products := [{ id := 1, title := "p", unitPrice := 100,
                     inventory := 5, collectionId := 1 }],
      customers := [{ id := 2, userId := 5, membership := 'B' }],
      carts := [{ id := 3 }],
      cartItems := [{ id := 1, cartId := 3, productId := 1,
                      quantity := 2 }] } 5 3 10
    { id := 10, customerId := 2, paymentStatus := 'P' } rfl
  exact (h.1).trans (by decide)

/-- C2: placement is all-or-nothing - on success the source cart and every
one of its lines are gone, and on any failure the store is exactly as it
was (no order or order-item row from the attempt, cart untouched). -/
theorem claim_C2_atomicity (db : DB) (uid cid oid : Nat) :
    (∀ order, (CreateOrderSerializer_save db uid cid oid).2 = Except.ok order →
        findCart (CreateOrderSerializer_save db uid cid oid).1 cid = none
        ∧ cartItemsOf (CreateOrderSerializer_save db uid cid oid).1 cid = [])
    ∧ (∀ e, (CreateOrderSerializer_save db uid cid oid).2 = Except.error e →
        (CreateOrderSerializer_save db uid cid oid).1 = db) := by
  constructor
  · intro order h
    exact save_ok_cart_gone h
  · intro e h
    exact save_error h

/-- Closed witness for C2: a concrete successful placement leaves neither
the cart nor its line behind, and a placement against an unknown cart id
leaves the concrete store exactly unchanged. -/
theorem claim_C2_atomicity_witness :
    (findCart (CreateOrderSerializer_save
      { DB.empty with
        products := [{ id := 1, title := "p", unitPrice := 100,
                       inventory := 5, collectionId := 1 }],
        customers := [{ id := 2, userId := 5, membership := 'B' }],
        carts := [{ id := 3 }],
        cartItems := [{ id := 1, cartId := 3, productId := 1,
                        quantity := 2 }] } 5 3 10).1 3 = none
      ∧ cartItemsOf (CreateOrderSerializer_save
        { DB.empty with
          products := [{ id := 1, title := "p", unitPrice := 100,
                         inventory := 5, collectionId := 1 }],
          customers := [{ id := 2, userId := 5, membership := 'B' }],
          carts := [{ id := 3 }],
          cartItems := [{ id := 1, cartId := 3, productId := 1,
                          quantity := 2 }] } 5 3 10).1 3 = [])
    ∧ (CreateOrderSerializer_save
        { DB.empty with
          carts := [{ id := 3 }] } 5 99 10).1
      = { DB.empty with carts := [{ id := 3 }] } := by
  constructor
  · exact (claim_C2_atomicity
      { DB.empty with
        products := [{ id := 1, title := "p", unitPrice := 100,
                       inventory := 5, collectionId := 1 }],
        customers := [{ id := 2, userId := 5, membership := 'B' }],
        carts := [{ id := 3 }],
        cartItems := [{ id := 1, cartId := 3, productId := 1,
                        quantity := 2 }] } 5 3 10).1
      { id := 10, customerId := 2, paymentStatus := 'P' } rfl
  · exact (claim_C2_atomicity
      { DB.empty with
        carts := [{ id := 3 }] } 5 99 10).2
      ApiError.notFound rfl

/-- C4: placement is rejected, with the store unchanged, when the cart id
is unknown (NotFound) or the cart is empty (ValidationError); conversely a
success implies the cart existed and was non-empty. -/
theorem claim_C4_input_validation (db : DB) (uid cid oid : Nat) :
    (findCart db cid = none →
        (CreateOrderSerializer_save db uid cid oid).2
          = Except.error ApiError.notFound
        ∧ (CreateOrderSerializer_save db uid cid oid).1 = db)
    ∧ (cartItemsOf db cid = [] →
        (∃ e, (CreateOrderSerializer_save db uid cid oid).2 = Except.error e)
        ∧ (CreateOrderSerializer_save db uid cid oid).1 = db)
    ∧ ((findCart db cid).isSome → cartItemsOf db cid = [] →
        (CreateOrderSerializer_save db uid cid oid).2
          = Except.error ApiError.validationError)
    ∧ (∀ order, (CreateOrderSerializer_save db uid cid oid).2 = Except.ok order →
        (findCart db cid).isSome ∧ cartItemsOf db cid ≠ []) := by
  refine ⟨?_, ?_, ?_, ?_⟩
  · intro h
    have h1 : (findCart db cid).isNone = true := by simp [h]
    constructor <;> simp [CreateOrderSerializer_save, h1]
  · intro h
    by_cases h1 : (findCart db cid).isNone = true
    · constructor
      · exact ⟨ApiError.notFound, by simp [CreateOrderSerializer_save, h1]⟩
      · simp [CreateOrderSerializer_save, h1]
    · have h2 : (cartItemsOf db cid).isEmpty = true := by simp [List.isEmpty_iff, h]
      constructor
      · exact ⟨ApiError.validationError, by simp [CreateOrderSerializer_save, h1, h2]⟩
      · simp [CreateOrderSerializer_save, h1, h2]
  · intro hsome h
    have h1 : ¬(findCart db cid).isNone = true := by
      simp [Option.isNone_iff_eq_none, Option.isSome_iff_ne_none] at hsome ⊢
      exact hsome
    have h2 : (cartItemsOf db cid).isEmpty = true := by simp [List.isEmpty_iff, h]
    simp [CreateOrderSerializer_save, h1, h2]
  · intro order h
    have hs := save_ok h
    exact ⟨hs.2.2.2.2.2.1, hs.2.2.2.2.2.2⟩

/-- Closed witness for C4: against the concrete store holding only empty
cart 3, an unknown cart id answers NotFound and the empty cart answers
ValidationError, both leaving the store unchanged. -/
theorem claim_C4_input_validation_witness :
    ((CreateOrderSerializer_save
        { DB.empty with carts := [{ id := 3 }] } 5 99 10).2
      = Except.error ApiError.notFound
      ∧ (CreateOrderSerializer_save
          { DB.empty with carts := [{ id := 3 }] } 5 99 10).1
        = { DB.empty with carts := [{ id := 3 }] })
    ∧ (CreateOrderSerializer_save
        { DB.empty with carts := [{ id := 3 }] } 5 3 10).2
      = Except.error ApiError.validationError := by
  constructor
  · exact (claim_C4_input_validation
      { DB.empty with carts := [{ id := 3 }] } 5 99 10).1 (by decide)
  · exact (claim_C4_input_validation
      { DB.empty with carts := [{ id := 3 }] } 5 3 10).2.2.1
      (by decide) (by decide)

/-- C9: under the serialized placement semantics the spec mandates, of two
placement requests against the same cart the one scheduled first succeeds
and the second observes the cart as already gone (NotFound) and changes
nothing - the cart is never checked out twice. -/
theorem claim_C9_no_double_checkout (db : DB) (u1 u2 cid o1 o2 : Nat)
    (hcart : (findCart db cid).isSome)
    (hitems : cartItemsOf db cid ≠ [])
    (hcust : (findCustomerByUser db u1).isSome) :
    (∃ order, (CreateOrderSerializer_save db u1 cid o1).2 = Except.ok order)
    ∧ (CreateOrderSerializer_save
        (CreateOrderSerializer_save db u1 cid o1).1 u2 cid o2).2
        = Except.error ApiError.notFound
    ∧ (CreateOrderSerializer_save
        (CreateOrderSerializer_save db u1 cid o1).1 u2 cid o2).1
        = (CreateOrderSerializer_save db u1 cid o1).1 := by
  obtain ⟨order, hok⟩ := save_succeeds o1 hcart hitems hcust
  have hgone := (save_ok_cart_gone hok).1
  refine ⟨⟨order, hok⟩, ?_, ?_⟩ <;>
    · generalize hdb1 : (CreateOrderSerializer_save db u1 cid o1).1 = db1 at hgone ⊢
      have h1 : (findCart db1 cid).isNone = true := by simp [hgone]
      simp [CreateOrderSerializer_save, h1]

/-- Closed witness for C9: the concrete one-line cart is checked out once;
the repeated request answers NotFound and leaves the store as the first
request left it. -/
theorem claim_C9_no_double_checkout_witness :
    (∃ order, (CreateOrderSerializer_save
      { DB.empty with
        products := [{ id := 1, title := "p", unitPrice := 100,
                       inventory := 5, collectionId := 1 }],
        customers := [{ id := 2, userId := 5, membership := 'B' }],
        carts := [{ id := 3 }],
        cartItems := [{ id := 1, cartId := 3, productId := 1,
                        quantity := 2 }] } 5 3 10).2 = Except.ok order)
    ∧ (CreateOrderSerializer_save
        (CreateOrderSerializer_save
          { DB.empty with
            products := [{ id := 1, title := "p", unitPrice := 100,
                           inventory := 5, collectionId := 1 }],
            customers := [{ id := 2, userId := 5, membership := 'B' }],
            carts := [{ id := 3 }],
            cartItems := [{ id := 1, cartId := 3, productId := 1,
                            quantity := 2 }] } 5 3 10).1 5 3 11).2
        = Except.error ApiError.notFound :=
  have h := claim_C9_no_double_checkout
    { DB.empty with
      products := [{ id := 1, title := "p", unitPrice := 100,
                     inventory := 5, collectionId := 1 }],
      customers := [{ id := 2, userId := 5, membership := 'B' }],
      carts := [{ id := 3 }],
      cartItems := [{ id := 1, cartId := 3, productId := 1,
                      quantity := 2 }] } 5 5 3 10 11
    (by decide) (by decide) (by decide)
  ⟨h.1, h.2.1⟩

/-- Helper: the merge map leaves every line of a cart list untouched when no
line matches the (cart, product) pair. -/
theorem map_merge_of_find_none (l : List CartItem) (cid pid add : Nat)
    (hl : l.find? (fun ci => ci.cartId == cid && ci.productId == pid) = none) :
    l.map (mergeLine cid pid add) = l := by
  induction l with
  | nil => rfl
  | cons x xs ih =>
    have hall := List.find?_eq_none.mp hl
    have hx : (x.cartId == cid && x.productId == pid) = false := by
      cases hb : (x.cartId == cid && x.productId == pid) with
      | false => rfl
      | true => exact absurd hb (hall x (List.mem_cons_self x xs))
    have htl : xs.find? (fun ci => ci.cartId == cid && ci.productId == pid)
        = none :=
      List.find?_eq_none.mpr (fun y hy => hall y (List.mem_cons_of_mem x hy))
    simp [mergeLine, hx, ih htl]

/-- Helper: filtering for a (cart, product) pair that no line matches gives
the empty list. -/
theorem filter_pair_of_find_none (l : List CartItem) (cid pid : Nat)
    (hl : l.find? (fun ci => ci.cartId == cid && ci.productId == pid) = none) :
    l.filter (fun ci => ci.cartId == cid && ci.productId == pid) = [] := by
  apply List.filter_eq_nil_iff.mpr
  intro a ha
  have hna := List.find?_eq_none.mp hl a ha
  simpa using hna

/-- C3: adding a product not yet in the cart creates one fresh line; adding
quantity 2 then quantity 3 of one product yields a single line of quantity
5 and only one more row than before; and the at-most-one-line-per
(cart, product) invariant (unique_together) is preserved by every add. -/
theorem claim_C3_merge_lines (db : DB) (cid pid fid fid2 : Nat) (q : Int)
    (hnone : db.cartItems.find?
      (fun ci => ci.cartId == cid && ci.productId == pid) = none) :
    (∀ db', AddCartItemSerializer_save db cid pid q fid = Except.ok db' →
        db'.cartItems = db.cartItems
          ++ [{ id := fid, cartId := cid, productId := pid,
                quantity := q.toNat }])
    ∧ (∀ db1 db2,
        AddCartItemSerializer_save db cid pid 2 fid = Except.ok db1 →
        AddCartItemSerializer_save db1 cid pid 3 fid2 = Except.ok db2 →
        db2.cartItems.filter
            (fun ci => ci.cartId == cid && ci.productId == pid)
          = [{ id := fid, cartId := cid, productId := pid, quantity := 5 }]
        ∧ db2.cartItems.length = db.cartItems.length + 1)
    ∧ (∀ (db0 : DB) (cid2 pid2 fid3 : Nat) (q2 : Int) (db' : DB),
        uniquePerCartProduct db0 →
        AddCartItemSerializer_save db0 cid2 pid2 q2 fid3 = Except.ok db' →
        uniquePerCartProduct db') := by
  refine ⟨?_, ?_, ?_⟩
  · intro db' hok
    by_cases hv : cartItemQuantityValid q
    · simp [AddCartItemSerializer_save, hv, hnone] at hok
      subst hok
      rfl
    · simp [AddCartItemSerializer_save, hv] at hok
  · intro db1 db2 h1 h2
    have hv2 : cartItemQuantityValid 2 = true := by decide
    have hv3 : cartItemQuantityValid 3 = true := by decide
    simp [AddCartItemSerializer_save, hv2, hnone] at h1
    subst h1
    simp [AddCartItemSerializer_save, hv3, hnone] at h2
    subst h2
    have hmap1 : db.cartItems.map (mergeLine cid pid 3) = db.cartItems :=
      map_merge_of_find_none _ _ _ _ hnone
    have hmap2 : mergeLine cid pid 3
        { id := fid, cartId := cid, productId := pid, quantity := 2 }
        = { id := fid, cartId := cid, productId := pid, quantity := 5 } := by
      simp [mergeLine]
    constructor
    · rw [hmap1, hmap2, List.filter_append, filter_pair_of_find_none _ _ _ hnone]
      simp
    · rw [hmap1, hmap2]
      simp
  · intro db0 cid2 pid2 fid3 q2 db' hu hok
    by_cases hv : cartItemQuantityValid q2
    · rcases hfind : db0.cartItems.find? (fun ci =>
          ci.cartId == cid2 && ci.productId == pid2) with _ | ci0
      · simp [AddCartItemSerializer_save, hv, hfind] at hok
        subst hok
        unfold uniquePerCartProduct at hu ⊢
        show List.Pairwise _ (db0.cartItems ++ [_])
        refine List.pairwise_append.mpr ⟨hu, List.pairwise_singleton _ _, ?_⟩
        intro a ha b hb
        have hbx := List.mem_singleton.mp hb
        subst hbx
        have hna := List.find?_eq_none.mp hfind a ha
        simp at hna
        by_cases hc : a.cartId = cid2
        · exact Or.inr (by simpa using hna hc)
        · exact Or.inl (by simpa using hc)
      · simp [AddCartItemSerializer_save, hv, hfind] at hok
        subst hok
        unfold uniquePerCartProduct at hu ⊢
        have hpres : ∀ x : CartItem,
            (mergeLine cid2 pid2 q2.toNat x).cartId = x.cartId
            ∧ (mergeLine cid2 pid2 q2.toNat x).productId = x.productId := by
          intro x
          by_cases hbx : (x.cartId == cid2 && x.productId == pid2) = true <;>
            simp [mergeLine, hbx]
        refine List.Pairwise.map _ ?_ hu
        intro a b hab
        rcases hab with h | h
        · exact Or.inl (by rw [(hpres a).1, (hpres b).1]; exact h)
        · exact Or.inr (by rw [(hpres a).2, (hpres b).2]; exact h)
    · simp [AddCartItemSerializer_save, hv] at hok

/-- Closed witness for C3: on a store holding only empty cart 3, adding
product 1 with quantity 2 and then quantity 3 produces the one line of
quantity 5. -/
theorem claim_C3_merge_lines_witness :
    AddCartItemSerializer_save { DB.empty with carts := [{ id := 3 }] }
        3 1 2 7
      = Except.ok { DB.empty with
          carts := [{ id := 3 }],
          cartItems := [{ id := 7, cartId := 3, productId := 1,
                          quantity := 2 }] }
    ∧ AddCartItemSerializer_save
        { DB.empty with
          carts := [{ id := 3 }],
          cartItems := [{ id := 7, cartId := 3, productId := 1,
                          quantity := 2 }] } 3 1 3 8
      = Except.ok { DB.empty with
          carts := [{ id := 3 }],
          cartItems := [{ id := 7, cartId := 3, productId := 1,
                          quantity := 5 }] }
    ∧ ({ DB.empty with
          carts := [{ id := 3 }],
          cartItems := [{ id := 7, cartId := 3, productId := 1,
                          quantity := 5 }] } : DB).cartItems.filter
          (fun ci => ci.cartId == 3 && ci.productId == 1)
        = [{ id := 7, cartId := 3, productId := 1, quantity := 5 }] := by
  have h := (claim_C3_merge_lines { DB.empty with carts := [{ id := 3 }] }
    3 1 7 8 2 rfl).2.1
    { DB.empty with
      carts := [{ id := 3 }],
      cartItems := [{ id := 7, cartId := 3, productId := 1, quantity := 2 }] }
    { DB.empty with
      carts := [{ id := 3 }],
      cartItems := [{ id := 7, cartId := 3, productId := 1, quantity := 5 }] }
    rfl rfl
  exact ⟨rfl, rfl, h.1⟩

end ShoppingCart
